import Mathlib

/-!
Verification development for the ThoughtForge client session core
(thoughtforge_client.py and utils.py): a shallow embedding of the
configuration loader, the session lifecycle manager, the update loop,
the debug/telemetry relay and the session summary reporter, together
with theorems about their behaviour.

Conventions of the embedding:
- Python dicts are association lists with first-match lookup
  (dict_lookup); server-assigned ids are Int, values are Rat.
- File and network I/O is external: each embedded operation takes the
  decoded request response (or file contents) as an explicit argument.
- A Python statement that can raise is embedded as an Except value;
  the distinct error constructors name the Python fault they model.
-/

/-- First-match lookup in an association list, the model of a Python
dict access d[k]. -/
def dict_lookup {α β : Type} [DecidableEq α] (k : α) : List (α × β) → Option β
  | [] => none
  | (a, b) :: rest => if a = k then some b else dict_lookup k rest

/-- Model of utils.safe_dict_get: the value at keyName when present,
the default otherwise. -/
def safe_dict_get {α β : Type} [DecidableEq α] (d : List (α × β)) (keyName : α) (default : β) : β :=
  match dict_lookup keyName d with
  | some v => v
  | none => default

/-- The characters after the last path separator (the basename used by
os.path.splitext). -/
def last_component : List Char → List Char :=
  fun cs => cs.foldl (fun acc c => if c = '/' then [] else acc ++ [c]) []

/-- The extension produced by os.path.splitext on a path: in the last
path component, leading dots are not extension separators; the
extension starts at the last dot of the remainder (empty when none). -/
def splitext_ext (p : String) : String :=
  let base := last_component p.toList
  let lead := base.takeWhile (fun c => c == '.')
  let rest := base.drop lead.length
  if rest.contains '.' then
    String.mk ('.' :: (rest.reverse.takeWhile (fun c => c != '.')).reverse)
  else ""

/-- Failure of the configuration loader (the raise in
utils._load_enforced_type for a wrong file extension). -/
inductive LoadError : Type
  | formatError : String → LoadError
deriving DecidableEq, Repr

/-- Model of utils._load_enforced_type (with use_named_tuple false, as
load_client_params calls it): the already-parsed contents of the file
are supplied as an argument since file reading is external; the
function checks the extension and returns the document unmodified. -/
def load_enforced_type {Doc : Type} (file_name : String) (enforced_type : String)
    (contents : Doc) : Except LoadError Doc :=
  if splitext_ext file_name = enforced_type then
    Except.ok contents
  else
    Except.error (LoadError.formatError
      ("config files must be of type" ++ enforced_type ++ " got " ++ file_name))

/-- Model of utils.load_client_params: load with enforced extension
".params". -/
def load_client_params {Doc : Type} (file_name : String) (contents : Doc) :
    Except LoadError Doc :=
  load_enforced_type file_name ".params" contents

example : splitext_ext "foo/bar.params" = ".params" := by decide
example : splitext_ext "bar.txt" = ".txt" := by decide
example : splitext_ext ".params" = "" := by decide
example : load_client_params "a.params" (37 : Nat) = Except.ok 37 := rfl

/-- One named debug record as assembled by _process_debugging_data:
global figures plus three dictionaries re-keyed by block name. -/
structure DebugRecord : Type where
  global_stability_rate : ℚ
  global_energy_estimate : ℚ
  block_stability_rates : List (String × ℚ)
  block_energy_estimates : List (String × ℚ)
  block_stable_times : List (String × ℚ)
deriving DecidableEq, Repr

/-- The mutable per-session fields of BaseThoughtForgeClientSession.
Server-assigned ids are Int; session_id none models Python None. -/
structure SessionState : Type where
  sim_t : Nat
  session_id : Option Int
  sensor_name_map : List (String × Int)
  motor_name_map : List (String × Int)
  block_name_map : List (String × Int)
  stop_requested : Bool
  all_session_logs : List String
  sensor_value_history : List (List (String × ℚ))
  motor_value_history : List (List (String × ℚ))
  debug_data_history : List DebugRecord
  debug_enabled : Bool
deriving DecidableEq, Repr

/-- The name field of a sensor or motor declaration entry: a single
name or a list of names (the isinstance(entry['name'], List) test). -/
inductive NameField : Type
  | single : String → NameField
  | multiple : List String → NameField
deriving DecidableEq, Repr

/-- How many sensors or motors one declaration entry declares: a
list-valued name entry counts as one per element. -/
def nameCount : NameField → Nat
  | NameField.single _ => 1
  | NameField.multiple l => l.length

/-- The client_params fields read by the session lifecycle code:
sensor and motor declaration name fields and the optional
enable_debug flag (absent key modelled as none, read through
safe_dict_get with default false). -/
structure ClientParams : Type where
  sensors : List NameField
  motors : List NameField
  enable_debug : Option Bool
deriving DecidableEq, Repr

/-- Model of _process_session_logs: appends the received messages to
all_session_logs when the batch is nonempty (printing is external). -/
def process_session_logs (s : SessionState) (session_logs : List String) : SessionState :=
  if session_logs.length > 0 then
    { s with all_session_logs := s.all_session_logs ++ session_logs }
  else s

/-- The state mutation at the end of _end_sim: every session-scoped
field is reset to its initial empty value (block_name_map and
debug_enabled are not touched by the source). -/
def end_sim_cleanup (s : SessionState) : SessionState :=
  { s with
    sim_t := 0
    session_id := none
    sensor_name_map := []
    motor_name_map := []
    stop_requested := false
    all_session_logs := []
    sensor_value_history := []
    motor_value_history := []
    debug_data_history := [] }

/-- The decoded /shutdownSession response. -/
structure ShutdownResponse : Type where
  ok : Bool
  session_log : List String
deriving DecidableEq, Repr

/-- The faults an update-loop tick, the summary reporter or the close
path can raise, named after the Python exception sites they model. -/
inductive TickFault : Type
  | sensorKeyError : String → TickFault
  | jsonDecodeError : TickFault
  | motorDictKeyError : TickFault
  | intConversionError : String → TickFault
  | sessionLogTypeError : TickFault
  | debuggingDataKeyError : TickFault
  | blockKeyError : String → TickFault
  | historyKeyError : String → TickFault
  | npEmptyValueError : String → TickFault
  | debugHistoryIndexError : TickFault
deriving DecidableEq, Repr

/-- The list comprehension inside _get_history_by_name: the value at
the given name in every history entry; none models the KeyError raised
when a later entry lacks the name. -/
def lookup_all (hist : List (List (String × ℚ))) (name : String) : Option (List ℚ) :=
  match hist with
  | [] => some []
  | d :: rest =>
    match dict_lookup name d with
    | none => none
    | some v => (lookup_all rest name).map (fun r => v :: r)

/-- Model of _end_sim._get_history_by_name: when the history is
nonempty and its first entry contains the name, gather the full value
history (KeyError if a later entry lacks the name); otherwise print a
warning and return the empty list. The Bool records whether the
warning was printed. -/
def get_history_by_name (hist : List (List (String × ℚ))) (name : String) :
    Except TickFault (List ℚ × Bool) :=
  match hist with
  | [] => Except.ok ([], true)
  | d :: _ =>
    if (dict_lookup name d).isSome then
      match lookup_all hist name with
      | some vals => Except.ok ((vals, false))
      | none => Except.error (TickFault.historyKeyError name)
    else Except.ok ([], true)

/-- np.min over the gathered values; none models the ValueError numpy
raises on an empty sequence. -/
def np_min : List ℚ → Option ℚ
  | [] => none
  | x :: rest => some (rest.foldl min x)

/-- np.max over the gathered values; none models the ValueError numpy
raises on an empty sequence. -/
def np_max : List ℚ → Option ℚ
  | [] => none
  | x :: rest => some (rest.foldl max x)

/-- np.mean: the sum divided by the length; none on an empty
sequence. -/
def np_mean (l : List ℚ) : Option ℚ :=
  match l with
  | [] => none
  | _ => some (l.sum / (l.length : ℚ))

/-- np.median: sort, take the middle element for odd length and the
average of the two middle elements for even length; none on an empty
sequence. -/
def np_median (l : List ℚ) : Option ℚ :=
  let sorted := List.insertionSort (fun a b : ℚ => a ≤ b) l
  let n := sorted.length
  if n = 0 then none
  else if n % 2 = 1 then sorted.get? (n / 2)
  else
    match sorted.get? (n / 2 - 1), sorted.get? (n / 2) with
    | some a, some b => some ((a + b) / 2)
    | _, _ => none

/-- The four statistics _end_sim prints for one name. -/
structure NameStats : Type where
  nmin : Option ℚ
  nmax : Option ℚ
  nmedian : Option ℚ
  nmean : Option ℚ
deriving DecidableEq, Repr

/-- The statistics computed from one gathered value history. -/
def summarize (vals : List ℚ) : NameStats :=
  { nmin := np_min vals
    nmax := np_max vals
    nmedian := np_median vals
    nmean := np_mean vals }

/-- One printed summary line: the name, whether the missing-history
warning was printed while gathering, and the computed statistics. -/
structure SummaryLine : Type where
  name : String
  warned : Bool
  stats : NameStats
deriving DecidableEq, Repr

/-- The per-name reporting loop of _end_sim over one history and one
list of declared names: gather the history, then compute the four
statistics in source order. np.min raises a ValueError when the
gathered sequence is empty (the remaining three calls cannot fail on a
nonempty one), so an empty gathered history aborts the reporter before
any further name is processed. -/
def report_names (hist : List (List (String × ℚ))) :
    List String → Except TickFault (List SummaryLine)
  | [] => Except.ok []
  | n :: rest =>
    match get_history_by_name hist n with
    | Except.error e => Except.error e
    | Except.ok (vals, warned) =>
      match np_min vals with
      | none => Except.error (TickFault.npEmptyValueError n)
      | some _ =>
        (report_names hist rest).map
          (fun r => { name := n, warned := warned, stats := summarize vals } :: r)

/-- Model of _end_sim: produce the motor summary lines (one per key of
the motor name map) and the sensor summary lines (one per key of the
sensor name map); with debug enabled, read the last received debug
record (the debug_data_history[-1] access, an IndexError when that
history is empty); only then reset the session-scoped state. Printing
is external; the returned lines and record are its content. A raise at
any of these sites skips the reset. -/
def end_sim (s : SessionState) :
    Except TickFault
      (List SummaryLine × List SummaryLine × Option DebugRecord × SessionState) :=
  match report_names s.motor_value_history (s.motor_name_map.map Prod.fst) with
  | Except.error e => Except.error e
  | Except.ok motor_lines =>
    match report_names s.sensor_value_history (s.sensor_name_map.map Prod.fst) with
    | Except.error e => Except.error e
    | Except.ok sensor_lines =>
      if s.debug_enabled then
        match s.debug_data_history.getLast? with
        | some final_state =>
          Except.ok (motor_lines, sensor_lines, some final_state, end_sim_cleanup s)
        | none => Except.error TickFault.debugHistoryIndexError
      else Except.ok (motor_lines, sensor_lines, none, end_sim_cleanup s)

/-- Model of _close_session: when the session id is present and
non-negative, post the shutdown request (its decoded response is the
argument), relay returned logs on an ok response, and run _end_sim;
otherwise do nothing. When _end_sim raises, the raise propagates out
of _close_session with the state as mutated so far (logs relayed, no
reset), carried in the error. -/
def close_session (resp : ShutdownResponse) (s : SessionState) :
    Except (TickFault × SessionState) SessionState :=
  match s.session_id with
  | some sid =>
    if 0 ≤ sid then
      let s1 := if resp.ok then process_session_logs s resp.session_log else s
      match end_sim s1 with
      | Except.error e => Except.error (e, s1)
      | Except.ok (_, _, _, s2) => Except.ok s2
    else Except.ok s
  | none => Except.ok s

/-- The state reached by _close_session whether it returns or raises.
Used only to model the close-old-session branch of
_initialize_session, which is dead in the source flow: __init__ sets
session_id to None immediately before calling _initialize_session, so
that branch never runs. -/
def close_session_state (resp : ShutdownResponse) (s : SessionState) : SessionState :=
  match close_session resp s with
  | Except.ok s2 => s2
  | Except.error e => e.2

/-- Model of _validate_sensors_motors: the registered sensor and motor
maps must have exactly as many entries as declared (list-valued name
entries counted per element). -/
def validate_sensors_motors (params : ClientParams) (s : SessionState) : Bool :=
  let total_sensors := params.sensors.foldl (fun acc e => acc + nameCount e) 0
  let total_motors := params.motors.foldl (fun acc e => acc + nameCount e) 0
  decide (s.sensor_name_map.length = total_sensors) &&
    decide (s.motor_name_map.length = total_motors)

/-- The decoded /initSession response (ok false models a non-ok HTTP
status, in which case the remaining fields are not read). -/
structure InitResponse : Type where
  ok : Bool
  session_id : Int
  motor_ids : List (String × Int)
  sensor_ids : List (String × Int)
  block_ids : List (String × Int)
  session_log : List String
deriving DecidableEq, Repr

/-- Model of _initialize_session: close any old session, record the
debug flag, and on an ok response install the returned id maps,
process the log batch and validate; a non-ok response, a negative
returned id or a failed validation forces session_id to -1. -/
def init_session (params : ClientParams) (resp : InitResponse)
    (shutdown_resp : ShutdownResponse) (s : SessionState) : SessionState :=
  let sA := if s.session_id = none then s else close_session_state shutdown_resp s
  let sB := { sA with debug_enabled := params.enable_debug.getD false }
  if resp.ok then
    let sC := { sB with
      session_id := some resp.session_id
      motor_name_map := resp.motor_ids
      sensor_name_map := resp.sensor_ids
      block_name_map := resp.block_ids }
    let sD := process_session_logs sC resp.session_log
    if resp.session_id < 0 || !(validate_sensors_motors params sD) then
      { sD with session_id := some (-1) }
    else sD
  else { sB with session_id := some (-1) }

/-- The guard at the end of BaseThoughtForgeClientSession.__init__:
_start_sim runs only when session_id is not None and non-negative. -/
def session_run_decision (s : SessionState) : Bool :=
  match s.session_id with
  | some sid => decide (0 ≤ sid)
  | none => false

/-- The raw per-tick debug payload decoded from the response field
debugging_data: block-indexed dictionaries are keyed by the string
form of the numeric block id (JSON object keys are strings). -/
structure DebugPayload : Type where
  global_stability_rate : ℚ
  global_energy_estimate : ℚ
  block_stability_rates : List (String × ℚ)
  block_energy_estimates : List (String × ℚ)
  block_stable_times : List (String × ℚ)
deriving DecidableEq, Repr

/-- The decoded /updateSim response body; a missing optional field
models the corresponding key being absent from the JSON object. -/
structure UpdateBody : Type where
  motor_dict : Option (List (String × ℚ))
  session_log : Option (List String)
  debugging_data : Option DebugPayload
deriving DecidableEq, Repr

/-- An /updateSim response: HTTP ok flag plus the body; body none
models a body on which response.json() fails. -/
structure UpdateResponse : Type where
  ok : Bool
  body : Option UpdateBody
deriving DecidableEq, Repr

/-- The sensor-name-to-id translation of _start_sim (the dict
comprehension over named_sensor_dict): a name absent from the sensor
map is a KeyError. -/
def translate_sensors (smap : List (String × Int)) :
    List (String × ℚ) → Except TickFault (List (Int × ℚ))
  | [] => Except.ok []
  | (name, v) :: rest =>
    match dict_lookup name smap with
    | some i => (translate_sensors smap rest).map (fun r => (i, v) :: r)
    | none => Except.error (TickFault.sensorKeyError name)

/-- The int(key) conversion over the returned motor_dict keys; a key
that is not an integer literal is a ValueError. -/
def parse_motor_keys : List (String × ℚ) → Except TickFault (List (Int × ℚ))
  | [] => Except.ok []
  | (k, v) :: rest =>
    match k.toInt? with
    | some i => (parse_motor_keys rest).map (fun r => (i, v) :: r)
    | none => Except.error (TickFault.intConversionError k)

/-- The named motor command built at the end of a tick: every motor of
the motor name map, with the returned value when its id is present and
0.0 otherwise (safe_dict_get with default 0.0). -/
def next_motor_command (mmap : List (String × Int)) (int_key_response_dict : List (Int × ℚ)) :
    List (String × ℚ) :=
  mmap.map (fun p => (p.1, safe_dict_get int_key_response_dict p.2 (0 : ℚ)))

/-- The re-keying of one block-indexed debug dictionary by block name:
for every map entry the payload is looked up at the string form of the
block id; a missing key is a KeyError. -/
def rekey_blocks (bmap : List (String × Int)) (payload : List (String × ℚ)) :
    Except TickFault (List (String × ℚ)) :=
  match bmap with
  | [] => Except.ok []
  | (name, bid) :: rest =>
    match dict_lookup (toString bid) payload with
    | some v => (rekey_blocks rest payload).map (fun r => (name, v) :: r)
    | none => Except.error (TickFault.blockKeyError (toString bid))

/-- Model of _process_debugging_data: when debug is enabled, re-key
the three block dictionaries by name, append the assembled record to
the debug history and invoke debug_data_received_notification with it
(the record passed to the callback is returned as the Option
component); when debug is disabled, do nothing. -/
def process_debugging_data (debugging_data : DebugPayload) (s : SessionState) :
    Except TickFault (SessionState × Option DebugRecord) :=
  if s.debug_enabled then
    match rekey_blocks s.block_name_map debugging_data.block_stability_rates with
    | Except.error e => Except.error e
    | Except.ok named_block_stability_rates =>
      match rekey_blocks s.block_name_map debugging_data.block_energy_estimates with
      | Except.error e => Except.error e
      | Except.ok named_block_energy_estimates =>
        match rekey_blocks s.block_name_map debugging_data.block_stable_times with
        | Except.error e => Except.error e
        | Except.ok named_block_stable_times =>
          let debug_data_dict : DebugRecord :=
            { global_stability_rate := debugging_data.global_stability_rate
              global_energy_estimate := debugging_data.global_energy_estimate
              block_stability_rates := named_block_stability_rates
              block_energy_estimates := named_block_energy_estimates
              block_stable_times := named_block_stable_times }
          Except.ok
            ({ s with debug_data_history := s.debug_data_history ++ [debug_data_dict] },
             some debug_data_dict)
  else Except.ok (s, none)

/-- The result of one successful tick: the updated state and the named
motor command passed to the next update callback. -/
structure TickOutcome : Type where
  state : SessionState
  next_motor : List (String × ℚ)
deriving DecidableEq, Repr

/-- One iteration of the _start_sim while loop, in source order:
append the motor command to history, call update, append the returned
sensors to history, translate sensor names to ids, send the request
(the decoded response is the resp argument; a non-ok status is only
printed), then unconditionally decode the body and read motor_dict,
session_log and debugging_data from it, build the next motor command,
process logs and debug data, and advance sim_t. -/
def run_tick (update_cb : List (String × ℚ) → List (String × ℚ)) (resp : UpdateResponse)
    (next_motor_dict : List (String × ℚ)) (s : SessionState) :
    Except TickFault TickOutcome :=
  let s1 := { s with motor_value_history := s.motor_value_history ++ [next_motor_dict] }
  let named_sensor_dict := update_cb next_motor_dict
  let s2 := { s1 with sensor_value_history := s1.sensor_value_history ++ [named_sensor_dict] }
  match translate_sensors s2.sensor_name_map named_sensor_dict with
  | Except.error e => Except.error e
  | Except.ok _sensor_dict =>
    match resp.body with
    | none => Except.error TickFault.jsonDecodeError
    | some body =>
      match body.motor_dict with
      | none => Except.error TickFault.motorDictKeyError
      | some motor_dict =>
        match parse_motor_keys motor_dict with
        | Except.error e => Except.error e
        | Except.ok int_key_response_dict =>
          let next_cmd := next_motor_command s2.motor_name_map int_key_response_dict
          match body.session_log with
          | none => Except.error TickFault.sessionLogTypeError
          | some session_log =>
            let s3 := process_session_logs s2 session_log
            match body.debugging_data with
            | none => Except.error TickFault.debuggingDataKeyError
            | some debugging_data =>
              match process_debugging_data debugging_data s3 with
              | Except.error e => Except.error e
              | Except.ok (s4, _record) =>
                Except.ok { state := { s4 with sim_t := s4.sim_t + 1 }, next_motor := next_cmd }

/-- The _start_sim while loop, driven by the finite list of decoded
responses as fuel (the source loop is unbounded; exhausted fuel stops
it); the Nat component counts the ticks run, each of which sends
exactly one /updateSim request. -/
def sim_loop (update_cb : List (String × ℚ) → List (String × ℚ)) :
    List UpdateResponse → List (String × ℚ) → SessionState → Nat →
    Except TickFault (SessionState × Nat)
  | resps, next_motor_dict, s, count =>
    if s.stop_requested then Except.ok (s, count)
    else
      match resps with
      | [] => Except.ok (s, count)
      | resp :: rest =>
        match run_tick update_cb resp next_motor_dict s with
        | Except.error e => Except.error e
        | Except.ok out => sim_loop update_cb rest out.next_motor out.state (count + 1)

/-- Model of _start_sim: notify the embedder, build the initial
all-zero motor command over the motor name map, and run the update
loop. -/
def start_sim (update_cb : List (String × ℚ) → List (String × ℚ))
    (resps : List UpdateResponse) (s : SessionState) :
    Except TickFault (SessionState × Nat) :=
  let next_motor_dict := s.motor_name_map.map (fun p => (p.1, (0 : ℚ)))
  sim_loop update_cb resps next_motor_dict s 0

/-- The initialization-then-run flow of __init__ after the state
fields are set up: run _initialize_session, then enter _start_sim only
when the resulting session id is not None and non-negative. The Bool
records whether the update loop was entered; the Nat inside the result
counts the /updateSim requests sent (zero when the loop is skipped). -/
def session_main (params : ClientParams) (init_resp : InitResponse)
    (shutdown_resp : ShutdownResponse)
    (update_cb : List (String × ℚ) → List (String × ℚ))
    (resps : List UpdateResponse) (s : SessionState) :
    Bool × Except TickFault (SessionState × Nat) :=
  let s1 := init_session params init_resp shutdown_resp s
  if session_run_decision s1 then (true, start_sim update_cb resps s1)
  else (false, Except.ok (s1, 0))

/-- A fresh session state as set up at the top of __init__. -/
def freshState : SessionState :=
  { sim_t := 0
    session_id := none
    sensor_name_map := []
    motor_name_map := []
    block_name_map := []
    stop_requested := false
    all_session_logs := []
    sensor_value_history := []
    motor_value_history := []
    debug_data_history := []
    debug_enabled := false }

/-- A shutdown response used by concrete witnesses. -/
def shutdownOkExample : ShutdownResponse := { ok := true, session_log := ["bye"] }

/-- A one-sensor one-motor configuration used by concrete witnesses. -/
def paramsExample : ClientParams :=
  { sensors := [NameField.single "pos"]
    motors := [NameField.single "force"]
    enable_debug := none }

/-- Projections of process_session_logs: only all_session_logs can
change. -/
theorem process_session_logs_sensor_map (s : SessionState) (l : List String) :
    (process_session_logs s l).sensor_name_map = s.sensor_name_map := by
  unfold process_session_logs
  split <;> rfl

theorem process_session_logs_motor_map (s : SessionState) (l : List String) :
    (process_session_logs s l).motor_name_map = s.motor_name_map := by
  unfold process_session_logs
  split <;> rfl

theorem process_session_logs_session_id (s : SessionState) (l : List String) :
    (process_session_logs s l).session_id = s.session_id := by
  unfold process_session_logs
  split <;> rfl

/-- C7: for every file path, loading the client configuration fails
with a format error unless the extension of the path is ".params";
when the extension matches, the parsed document is returned
unmodified, with no further schema enforcement at load time. -/
theorem c7_load_client_params_extension_gate {Doc : Type} (path : String) (contents : Doc) :
    (load_client_params path contents = Except.ok contents ↔
      splitext_ext path = ".params") ∧
    (load_client_params path contents =
        Except.error (LoadError.formatError
          ("config files must be of type" ++ ".params" ++ " got " ++ path)) ↔
      splitext_ext path ≠ ".params") := by
  unfold load_client_params load_enforced_type
  by_cases h : splitext_ext path = ".params" <;> simp [h]

/-- An open session with one declared motor and no recorded history,
the state reached when initialization succeeds but an exception stops
the first tick before its history append. -/
def c1OpenNoHistory : SessionState :=
  { freshState with session_id := some 5, motor_name_map := [("m", 0)] }

/-- c1OpenNoHistory after one raising close: the shutdown log batch
has been relayed but nothing was reset. -/
def c1AfterOnce : SessionState :=
  { c1OpenNoHistory with all_session_logs := ["bye"] }

/-- c1OpenNoHistory after two raising closes: the shutdown log batch
has been relayed twice. -/
def c1AfterTwice : SessionState :=
  { c1OpenNoHistory with all_session_logs := ["bye", "bye"] }

/-- Counterexample to C1 as stated: on an open session with a declared
motor and an empty value history, _end_sim raises at np.min of the
empty gathered history, so _close_session aborts before the reset:
the session stays open with the shutdown logs appended, and a second
close repeats the shutdown and appends the logs again, leaving a
different final state than a single close. -/
theorem c1_counterexample_raising_close_not_idempotent :
    close_session shutdownOkExample c1OpenNoHistory =
      Except.error (TickFault.npEmptyValueError "m", c1AfterOnce) ∧
    close_session shutdownOkExample c1AfterOnce =
      Except.error (TickFault.npEmptyValueError "m", c1AfterTwice) ∧
    c1AfterOnce.session_id = some 5 ∧
    c1AfterOnce ≠ c1OpenNoHistory ∧
    c1AfterTwice ≠ c1AfterOnce := by
  refine ⟨rfl, rfl, rfl, by decide, by decide⟩

/-- The session state returned by a completed _end_sim is the reset
state. -/
theorem end_sim_ok_state (s : SessionState) (ml sl : List SummaryLine)
    (od : Option DebugRecord) (s2 : SessionState)
    (h : end_sim s = Except.ok (ml, sl, od, s2)) : s2 = end_sim_cleanup s := by
  unfold end_sim at h
  split at h
  · simp at h
  · split at h
    · simp at h
    · split at h
      · split at h
        · simp only [Except.ok.injEq, Prod.mk.injEq] at h
          exact h.2.2.2.symm
        · simp at h
      · simp only [Except.ok.injEq, Prod.mk.injEq] at h
        exact h.2.2.2.symm

/-- C1 amended: a close that completes (returns rather than raising
from the _end_sim summary) is idempotent, a close of a non-open
session always completes and is a no-op, and a completed close of an
open session resets every session-scoped field to its initial empty
value; unqualified idempotence fails when _end_sim raises, since the
reset is then skipped. -/
theorem c1_amended_completed_close_idempotent (s s2 : SessionState)
    (r1 r2 : ShutdownResponse) (h : close_session r1 s = Except.ok s2) :
    close_session r2 s2 = Except.ok s2 ∧
    (s.session_id = none → s2 = s) ∧
    (∀ sid : Int, s.session_id = some sid → 0 ≤ sid →
      s2.sim_t = 0 ∧
      s2.session_id = none ∧
      s2.sensor_name_map = [] ∧
      s2.motor_name_map = [] ∧
      s2.stop_requested = false ∧
      s2.all_session_logs = [] ∧
      s2.sensor_value_history = [] ∧
      s2.motor_value_history = [] ∧
      s2.debug_data_history = []) := by
  cases hsid : s.session_id with
  | none =>
    have hs : s2 = s := by
      simp only [close_session, hsid, Except.ok.injEq] at h
      exact h.symm
    subst hs
    refine ⟨by simp [close_session, hsid], fun _ => rfl, ?_⟩
    intro sid hsid2 _
    simp [hsid] at hsid2
  | some sid =>
    by_cases hge : 0 ≤ sid
    · simp only [close_session, hsid, if_pos hge] at h
      split at h
      · simp at h
      · rename_i ml sl od sfin heq
        simp only [Except.ok.injEq] at h
        have hfin := end_sim_ok_state _ ml sl od sfin heq
        subst h
        subst hfin
        refine ⟨by simp [close_session, end_sim_cleanup], ?_, ?_⟩
        · intro hnone
          simp [hsid] at hnone
        · intro sid2 _ _
          simp [end_sim_cleanup]
    · simp only [close_session, hsid, if_neg hge, Except.ok.injEq] at h
      subst h
      refine ⟨by simp [close_session, hsid, if_neg hge], ?_, ?_⟩
      · intro hnone
        simp [hsid] at hnone
      · intro sid2 hsid2 hge2
        injection hsid2 with hq
        omega

/-- An open session with no declared sensors or motors, on which
_end_sim completes. -/
def emptyOpenExample : SessionState := { freshState with session_id := some 5 }

/-- Witness for the amended C1 at a concrete completed close of an
open session. -/
theorem c1_witness :
    close_session shutdownOkExample freshState = Except.ok freshState ∧
    freshState.session_id = none ∧
    freshState.motor_value_history = [] := by
  have h := c1_amended_completed_close_idempotent emptyOpenExample freshState
    shutdownOkExample shutdownOkExample rfl
  have h2 := h.2.2 5 rfl (by decide)
  exact ⟨h.1, h2.2.1, h2.2.2.2.2.2.2.2.1⟩

/-- C2: when initialization ends with a negative session id the update
loop is never entered and no update request is sent; conversely the
loop is entered only when the session id is present and
non-negative. -/
theorem c2_negative_session_skips_loop (params : ClientParams) (init_resp : InitResponse)
    (shutdown_resp : ShutdownResponse)
    (update_cb : List (String × ℚ) → List (String × ℚ))
    (resps : List UpdateResponse) (s : SessionState) :
    (∀ sid : Int, (init_session params init_resp shutdown_resp s).session_id = some sid →
      sid < 0 →
      session_main params init_resp shutdown_resp update_cb resps s =
        (false, Except.ok (init_session params init_resp shutdown_resp s, 0))) ∧
    ((session_main params init_resp shutdown_resp update_cb resps s).1 = true →
      ∃ sid : Int,
        (init_session params init_resp shutdown_resp s).session_id = some sid ∧ 0 ≤ sid) := by
  constructor
  · intro sid hsid hneg
    have hdec : session_run_decision (init_session params init_resp shutdown_resp s) = false := by
      simp only [session_run_decision, hsid, decide_eq_false_iff_not]
      omega
    simp [session_main, hdec]
  · intro h
    have hdec : session_run_decision (init_session params init_resp shutdown_resp s) = true := by
      cases hcd : session_run_decision (init_session params init_resp shutdown_resp s) with
      | true => rfl
      | false => simp [session_main, hcd] at h
    cases hsid : (init_session params init_resp shutdown_resp s).session_id with
    | none => simp [session_run_decision, hsid] at hdec
    | some sid =>
      refine ⟨sid, rfl, ?_⟩
      simpa [session_run_decision, hsid] using hdec

/-- An init response with a non-ok HTTP status. -/
def initFailExample : InitResponse :=
  { ok := false
    session_id := 0
    motor_ids := []
    sensor_ids := []
    block_ids := []
    session_log := [] }

/-- Witness for C2 at a concrete failed initialization. -/
theorem c2_witness :
    session_main paramsExample initFailExample shutdownOkExample (fun _ => []) [] freshState =
      (false,
        Except.ok (init_session paramsExample initFailExample shutdownOkExample freshState, 0)) := by
  exact (c2_negative_session_skips_loop paramsExample initFailExample shutdownOkExample
    (fun _ => []) [] freshState).1 (-1) rfl (by decide)

/-- C3: with an ok init response, a mismatch between the size of the
returned sensor or motor id map and the declared count (each
list-valued name entry counted as one per element, through nameCount)
forces the session id to -1. -/
theorem c3_count_mismatch_forces_failure (params : ClientParams) (resp : InitResponse)
    (shutdown_resp : ShutdownResponse) (s : SessionState)
    (hok : resp.ok = true)
    (hmis : resp.sensor_ids.length ≠ params.sensors.foldl (fun acc e => acc + nameCount e) 0 ∨
      resp.motor_ids.length ≠ params.motors.foldl (fun acc e => acc + nameCount e) 0) :
    (init_session params resp shutdown_resp s).session_id = some (-1) := by
  unfold init_session
  rw [hok]
  have hv : validate_sensors_motors params
      (process_session_logs
        { (if s.session_id = none then s else close_session_state shutdown_resp s) with
          debug_enabled := params.enable_debug.getD false
          session_id := some resp.session_id
          motor_name_map := resp.motor_ids
          sensor_name_map := resp.sensor_ids
          block_name_map := resp.block_ids } resp.session_log) = false := by
    unfold validate_sensors_motors
    rcases hmis with h | h <;>
      simp [process_session_logs_sensor_map, process_session_logs_motor_map, h]
  simp only [if_true, hv, Bool.not_false, Bool.or_true, if_pos]

/-- A configuration with a list-valued sensor name entry, declaring
two sensors and one motor. -/
def paramsMultiExample : ClientParams :=
  { sensors := [NameField.multiple ["a", "b"]]
    motors := [NameField.single "m"]
    enable_debug := none }

/-- An ok init response registering only one sensor against the two
declared by paramsMultiExample. -/
def initMismatchExample : InitResponse :=
  { ok := true
    session_id := 7
    motor_ids := [("m", 0)]
    sensor_ids := [("a", 0)]
    block_ids := []
    session_log := [] }

/-- Witness for C3: the crafted one-short sensor map forces failure. -/
theorem c3_witness :
    (init_session paramsMultiExample initMismatchExample shutdownOkExample
        freshState).session_id = some (-1) := by
  exact c3_count_mismatch_forces_failure paramsMultiExample initMismatchExample
    shutdownOkExample freshState rfl (Or.inl (by decide))

/-- The update callback of a trivial embedder returning no sensors. -/
def cbZero : List (String × ℚ) → List (String × ℚ) := fun _ => []

/-- A non-ok /updateSim response whose body response.json() cannot
decode. -/
def nonOkEmptyBody : UpdateResponse := { ok := false, body := none }

/-- C4 evaluation at the failing input: the source parses the response
body unconditionally after logging a non-ok status, so a non-ok
response with an undecodable body makes the tick raise instead of
completing with the all-zero motor command. -/
theorem c4_nonok_tick_raises :
    run_tick cbZero nonOkEmptyBody [] freshState = Except.error TickFault.jsonDecodeError := rfl

/-- Inversion of a successful tick: every read along the tick
succeeded and the outcome is determined by the read values. -/
theorem run_tick_ok_inversion (update_cb : List (String × ℚ) → List (String × ℚ))
    (resp : UpdateResponse) (nm : List (String × ℚ)) (s : SessionState) (out : TickOutcome)
    (h : run_tick update_cb resp nm s = Except.ok out) :
    ∃ (sensor_dict : List (Int × ℚ)) (body : UpdateBody) (md : List (String × ℚ))
      (ik : List (Int × ℚ)) (logs : List String) (dbg : DebugPayload)
      (s4 : SessionState) (rec : Option DebugRecord),
      translate_sensors s.sensor_name_map (update_cb nm) = Except.ok sensor_dict ∧
      resp.body = some body ∧
      body.motor_dict = some md ∧
      parse_motor_keys md = Except.ok ik ∧
      body.session_log = some logs ∧
      body.debugging_data = some dbg ∧
      process_debugging_data dbg
        (process_session_logs
          { s with
            motor_value_history := s.motor_value_history ++ [nm]
            sensor_value_history := s.sensor_value_history ++ [update_cb nm] } logs) =
        Except.ok (s4, rec) ∧
      out = { state := { s4 with sim_t := s4.sim_t + 1 }
              next_motor := next_motor_command s.motor_name_map ik } := by
  simp only [run_tick] at h
  split at h
  · simp at h
  · rename_i sensor_dict htr
    split at h
    · simp at h
    · rename_i body hbody
      split at h
      · simp at h
      · rename_i md hmd
        split at h
        · simp at h
        · rename_i ik hik
          split at h
          · simp at h
          · rename_i logs hlogs
            split at h
            · simp at h
            · rename_i dbg hdbg
              split at h
              · simp at h
              · rename_i s4 rec hpd
                refine ⟨sensor_dict, body, md, ik, logs, dbg, s4, rec, ?_, hbody, hmd, hik,
                  hlogs, hdbg, ?_, ?_⟩
                · simpa using htr
                · simpa using hpd
                · simpa using h.symm

/-- C5: in the named motor command built from an ok response, a motor
whose id is absent from the returned motor dictionary gets 0.0 and a
motor whose id is present gets the returned value; and the command a
successful tick passes onward is exactly next_motor_command over the
parsed dictionary. -/
theorem c5_missing_motor_id_defaults_zero (mmap : List (String × Int))
    (mdict : List (Int × ℚ)) (name : String) (mid : Int) :
    ((name, mid) ∈ mmap → dict_lookup mid mdict = none →
      (name, (0 : ℚ)) ∈ next_motor_command mmap mdict) ∧
    (∀ v : ℚ, (name, mid) ∈ mmap → dict_lookup mid mdict = some v →
      (name, v) ∈ next_motor_command mmap mdict) ∧
    (∀ (update_cb : List (String × ℚ) → List (String × ℚ)) (resp : UpdateResponse)
        (nm : List (String × ℚ)) (s : SessionState) (out : TickOutcome)
        (body : UpdateBody) (md : List (String × ℚ)) (ik : List (Int × ℚ)),
      run_tick update_cb resp nm s = Except.ok out →
      resp.body = some body → body.motor_dict = some md →
      parse_motor_keys md = Except.ok ik →
      out.next_motor = next_motor_command s.motor_name_map ik) := by
  refine ⟨?_, ?_, ?_⟩
  · intro hmem hnone
    have hmap := List.mem_map_of_mem
      (fun p : String × Int => (p.1, safe_dict_get mdict p.2 (0 : ℚ))) hmem
    simpa [next_motor_command, safe_dict_get, hnone] using hmap
  · intro v hmem hsome
    have hmap := List.mem_map_of_mem
      (fun p : String × Int => (p.1, safe_dict_get mdict p.2 (0 : ℚ))) hmem
    simpa [next_motor_command, safe_dict_get, hsome] using hmap
  · intro update_cb resp nm s out body md ik hrun hbody hmd hik
    obtain ⟨sd, body2, md2, ik2, logs, dbg, s4, rec, _, hbody2, hmd2, hik2, _, _, _, hout⟩ :=
      run_tick_ok_inversion update_cb resp nm s out hrun
    rw [hbody] at hbody2
    cases hbody2
    rw [hmd] at hmd2
    cases hmd2
    rw [hik] at hik2
    cases hik2
    rw [hout]

/-- The motor map and returned motor dictionary of the C5 witness: the
id of motor b is omitted, the id of motor a is present. -/
def motorMapExample : List (String × Int) := [("a", 1), ("b", 2)]

/-- Witness for C5: with ids 1 present and 2 absent, motor a receives
the returned value and motor b receives 0.0. -/
theorem c5_witness :
    (("b", (0 : ℚ)) ∈ next_motor_command motorMapExample [(1, (5 : ℚ))]) ∧
    (("a", (5 : ℚ)) ∈ next_motor_command motorMapExample [(1, (5 : ℚ))]) := by
  constructor
  · exact (c5_missing_motor_id_defaults_zero motorMapExample [(1, (5 : ℚ))] "b" 2).1
      (by simp [motorMapExample]) rfl
  · exact (c5_missing_motor_id_defaults_zero motorMapExample [(1, (5 : ℚ))] "a" 1).2.1 5
      (by simp [motorMapExample]) rfl

/-- C10: regardless of the debug flag and of the HTTP status, a tick
whose decoded response body lacks the debugging_data field never
completes; when every earlier read succeeds the tick terminates with
exactly the lookup fault of the debugging_data access. -/
theorem c10_debugging_data_required (update_cb : List (String × ℚ) → List (String × ℚ))
    (resp : UpdateResponse) (nm : List (String × ℚ)) (s : SessionState) (body : UpdateBody) :
    (resp.body = some body → body.debugging_data = none →
      ∀ out : TickOutcome, run_tick update_cb resp nm s ≠ Except.ok out) ∧
    (∀ (sensor_dict : List (Int × ℚ)) (md : List (String × ℚ)) (ik : List (Int × ℚ))
        (logs : List String),
      translate_sensors s.sensor_name_map (update_cb nm) = Except.ok sensor_dict →
      resp.body = some body → body.motor_dict = some md →
      parse_motor_keys md = Except.ok ik → body.session_log = some logs →
      body.debugging_data = none →
      run_tick update_cb resp nm s = Except.error TickFault.debuggingDataKeyError) := by
  constructor
  · intro hbody hnone out hok
    obtain ⟨_, body2, _, _, _, _, _, _, _, hbody2, _, _, _, hdbg, _, _⟩ :=
      run_tick_ok_inversion update_cb resp nm s out hok
    rw [hbody] at hbody2
    cases hbody2
    rw [hnone] at hdbg
    cases hdbg
  · intro sensor_dict md ik logs htr hbody hmd hik hlogs hnone
    simp only [run_tick]
    simp [htr, hbody, hmd, hik, hlogs, hnone]

/-- An ok /updateSim response whose body lacks debugging_data. -/
def okNoDebugBody : UpdateResponse :=
  { ok := true
    body := some { motor_dict := some [], session_log := some [], debugging_data := none } }

/-- Witness for C10 at a concrete response lacking debugging_data. -/
theorem c10_witness :
    run_tick cbZero okNoDebugBody [] freshState =
      Except.error TickFault.debuggingDataKeyError := by
  exact (c10_debugging_data_required cbZero okNoDebugBody [] freshState
    { motor_dict := some [], session_log := some [], debugging_data := none }).2
    [] [] [] [] rfl rfl rfl rfl rfl rfl

theorem process_session_logs_motor_history (s : SessionState) (l : List String) :
    (process_session_logs s l).motor_value_history = s.motor_value_history := by
  unfold process_session_logs
  split <;> rfl

theorem process_session_logs_sensor_history (s : SessionState) (l : List String) :
    (process_session_logs s l).sensor_value_history = s.sensor_value_history := by
  unfold process_session_logs
  split <;> rfl

/-- The debug relay never touches the sensor or motor value
histories. -/
theorem process_debugging_data_histories (dbg : DebugPayload) (s s2 : SessionState)
    (rec : Option DebugRecord) (h : process_debugging_data dbg s = Except.ok (s2, rec)) :
    s2.motor_value_history = s.motor_value_history ∧
    s2.sensor_value_history = s.sensor_value_history := by
  unfold process_debugging_data at h
  split at h
  · split at h
    · simp at h
    · split at h
      · simp at h
      · split at h
        · simp at h
        · simp only [Except.ok.injEq, Prod.mk.injEq] at h
          rw [← h.1]
          exact ⟨rfl, rfl⟩
  · simp only [Except.ok.injEq, Prod.mk.injEq] at h
    rw [← h.1]
    exact ⟨rfl, rfl⟩

/-- An ok /updateSim response with a complete body. -/
def okFullBody : UpdateResponse :=
  { ok := true
    body := some
      { motor_dict := some []
        session_log := some []
        debugging_data := some
          { global_stability_rate := 0
            global_energy_estimate := 0
            block_stability_rates := []
            block_energy_estimates := []
            block_stable_times := [] } } }

/-- The outcome of one tick of the C9 scenario. -/
def tickOutcomeExample : TickOutcome :=
  { state := { freshState with
      motor_value_history := [[("m", 1)]]
      sensor_value_history := [[]]
      sim_t := 1 }
    next_motor := [] }

/-- Counterexample to C9 as stated: in a session with debug disabled,
one successful tick still changes the motor and sensor value
histories. -/
theorem c9_counterexample_histories_recorded_without_debug :
    freshState.debug_enabled = false ∧
    run_tick cbZero okFullBody [("m", 1)] freshState = Except.ok tickOutcomeExample ∧
    tickOutcomeExample.state.motor_value_history ≠ freshState.motor_value_history ∧
    tickOutcomeExample.state.sensor_value_history ≠ freshState.sensor_value_history := by
  refine ⟨rfl, rfl, by decide, by decide⟩

/-- C9 amended: every successful tick records the just-applied motor
command and the returned sensor values into the value histories,
whether or not debug is enabled (only the debug snapshot history is
debug-gated). -/
theorem c9_amended_histories_recorded_every_tick
    (update_cb : List (String × ℚ) → List (String × ℚ)) (resp : UpdateResponse)
    (nm : List (String × ℚ)) (s : SessionState) (out : TickOutcome)
    (h : run_tick update_cb resp nm s = Except.ok out) :
    out.state.motor_value_history = s.motor_value_history ++ [nm] ∧
    out.state.sensor_value_history = s.sensor_value_history ++ [update_cb nm] := by
  obtain ⟨sd, body, md, ik, logs, dbg, s4, rec, htr, hbody, hmd, hik, hlogs, hdbg, hpd, hout⟩ :=
    run_tick_ok_inversion update_cb resp nm s out h
  have hph := process_debugging_data_histories dbg _ s4 rec hpd
  rw [hout]
  constructor
  · simp [hph.1, process_session_logs_motor_history]
  · simp [hph.2, process_session_logs_sensor_history]

/-- Witness for the amended C9 at a concrete debug-disabled tick. -/
theorem c9_witness :
    tickOutcomeExample.state.motor_value_history =
      freshState.motor_value_history ++ [[("m", (1 : ℚ))]] ∧
    tickOutcomeExample.state.sensor_value_history =
      freshState.sensor_value_history ++ [cbZero [("m", (1 : ℚ))]] := by
  exact c9_amended_histories_recorded_every_tick cbZero okFullBody [("m", 1)] freshState
    tickOutcomeExample rfl

/-- A completed re-keying looked up every block id of the map in the
payload. -/
theorem rekey_blocks_ok_all_present (payload : List (String × ℚ)) :
    ∀ (bmap : List (String × Int)) (r : List (String × ℚ)),
      rekey_blocks bmap payload = Except.ok r →
      ∀ p ∈ bmap, (dict_lookup (toString p.2) payload).isSome = true := by
  intro bmap
  induction bmap with
  | nil =>
    intro r _ p hp
    cases hp
  | cons hd tl ih =>
    intro r h p hp
    obtain ⟨n0, b0⟩ := hd
    simp only [rekey_blocks] at h
    cases hl : dict_lookup (toString b0) payload with
    | none =>
      rw [hl] at h
      simp at h
    | some v0 =>
      rw [hl] at h
      rcases List.mem_cons.mp hp with heq | hp2
      · subst heq
        simp [hl]
      · cases hr : rekey_blocks tl payload with
        | error e =>
          rw [hr] at h
          simp [Except.map] at h
        | ok r2 => exact ih r2 hr p hp2

/-- A failed re-keying fails with a block-key lookup error for a key
absent from the payload. -/
theorem rekey_blocks_error_shape (payload : List (String × ℚ)) :
    ∀ (bmap : List (String × Int)) (e : TickFault),
      rekey_blocks bmap payload = Except.error e →
      ∃ k, e = TickFault.blockKeyError k ∧ dict_lookup k payload = (none : Option ℚ) := by
  intro bmap
  induction bmap with
  | nil =>
    intro e h
    simp [rekey_blocks] at h
  | cons hd tl ih =>
    intro e h
    obtain ⟨n0, b0⟩ := hd
    simp only [rekey_blocks] at h
    cases hl : dict_lookup (toString b0) payload with
    | none =>
      rw [hl] at h
      simp only [Except.error.injEq] at h
      exact ⟨toString b0, h.symm, hl⟩
    | some v0 =>
      rw [hl] at h
      cases hr : rekey_blocks tl payload with
      | error e2 =>
        rw [hr] at h
        simp only [Except.map] at h
        simp only [Except.error.injEq] at h
        subst h
        exact ih e2 hr
      | ok r2 =>
        rw [hr] at h
        simp [Except.map] at h

/-- A completed re-keying sends every map entry whose id resolves in
the payload to a name-keyed entry with the looked-up value. -/
theorem rekey_blocks_mem (payload : List (String × ℚ)) (name : String) (bid : Int) (v : ℚ)
    (hl : dict_lookup (toString bid) payload = some v) :
    ∀ (bmap : List (String × Int)) (r : List (String × ℚ)),
      (name, bid) ∈ bmap → rekey_blocks bmap payload = Except.ok r → (name, v) ∈ r := by
  intro bmap
  induction bmap with
  | nil =>
    intro r hmem _
    cases hmem
  | cons hd tl ih =>
    intro r hmem h
    obtain ⟨n0, b0⟩ := hd
    simp only [rekey_blocks] at h
    rcases List.mem_cons.mp hmem with heq | hmem2
    · simp only [Prod.mk.injEq] at heq
      obtain ⟨rfl, rfl⟩ := heq
      rw [hl] at h
      cases hr : rekey_blocks tl payload with
      | error e =>
        rw [hr] at h
        simp [Except.map] at h
      | ok r2 =>
        rw [hr] at h
        simp only [Except.map, Except.ok.injEq] at h
        rw [← h]
        exact List.mem_cons_self _ _
    · cases hl0 : dict_lookup (toString b0) payload with
      | none =>
        rw [hl0] at h
        simp at h
      | some v0 =>
        rw [hl0] at h
        cases hr : rekey_blocks tl payload with
        | error e =>
          rw [hr] at h
          simp [Except.map] at h
        | ok r2 =>
          rw [hr] at h
          simp only [Except.map, Except.ok.injEq] at h
          rw [← h]
          exact List.mem_cons_of_mem _ (ih r2 hmem2 hr)

/-- C6: when debug is disabled the relay does nothing; when debug is
enabled it re-keys the three block-indexed dictionaries by block name
over the whole block name map, appends the assembled named record to
the debug history and hands exactly that record to the notification
callback, with every map entry re-keyed to the payload value at the
string form of its block id; a block id missing from any of the three
payload dictionaries makes the relay fail with a block-key lookup
error. -/
theorem c6_debug_relay_rekeys_by_name (s : SessionState) (dbg : DebugPayload) :
    (s.debug_enabled = false → process_debugging_data dbg s = Except.ok (s, none)) ∧
    (∀ r1 r2 r3 : List (String × ℚ), s.debug_enabled = true →
      rekey_blocks s.block_name_map dbg.block_stability_rates = Except.ok r1 →
      rekey_blocks s.block_name_map dbg.block_energy_estimates = Except.ok r2 →
      rekey_blocks s.block_name_map dbg.block_stable_times = Except.ok r3 →
      process_debugging_data dbg s =
        Except.ok
          ({ s with debug_data_history := s.debug_data_history ++
              [{ global_stability_rate := dbg.global_stability_rate
                 global_energy_estimate := dbg.global_energy_estimate
                 block_stability_rates := r1
                 block_energy_estimates := r2
                 block_stable_times := r3 }] },
           some
             { global_stability_rate := dbg.global_stability_rate
               global_energy_estimate := dbg.global_energy_estimate
               block_stability_rates := r1
               block_energy_estimates := r2
               block_stable_times := r3 })) ∧
    (∀ (name : String) (bid : Int) (v : ℚ) (r : List (String × ℚ)),
      (name, bid) ∈ s.block_name_map →
      dict_lookup (toString bid) dbg.block_stability_rates = some v →
      rekey_blocks s.block_name_map dbg.block_stability_rates = Except.ok r →
      (name, v) ∈ r) ∧
    (∀ (name : String) (bid : Int), s.debug_enabled = true →
      (name, bid) ∈ s.block_name_map →
      (dict_lookup (toString bid) dbg.block_stability_rates = (none : Option ℚ) ∨
       dict_lookup (toString bid) dbg.block_energy_estimates = (none : Option ℚ) ∨
       dict_lookup (toString bid) dbg.block_stable_times = (none : Option ℚ)) →
      ∃ k, process_debugging_data dbg s = Except.error (TickFault.blockKeyError k)) := by
  refine ⟨?_, ?_, ?_, ?_⟩
  · intro h
    simp [process_debugging_data, h]
  · intro r1 r2 r3 hd h1 h2 h3
    simp [process_debugging_data, hd, h1, h2, h3]
  · intro name bid v r hmem hl hok
    exact rekey_blocks_mem dbg.block_stability_rates name bid v hl s.block_name_map r hmem hok
  · intro name bid hd hmem hmiss
    cases h1 : rekey_blocks s.block_name_map dbg.block_stability_rates with
    | error e =>
      obtain ⟨k, hk, _⟩ := rekey_blocks_error_shape _ _ _ h1
      exact ⟨k, by simp [process_debugging_data, hd, h1, hk]⟩
    | ok r1 =>
      cases h2 : rekey_blocks s.block_name_map dbg.block_energy_estimates with
      | error e =>
        obtain ⟨k, hk, _⟩ := rekey_blocks_error_shape _ _ _ h2
        exact ⟨k, by simp [process_debugging_data, hd, h1, h2, hk]⟩
      | ok r2 =>
        cases h3 : rekey_blocks s.block_name_map dbg.block_stable_times with
        | error e =>
          obtain ⟨k, hk, _⟩ := rekey_blocks_error_shape _ _ _ h3
          exact ⟨k, by simp [process_debugging_data, hd, h1, h2, h3, hk]⟩
        | ok r3 =>
          exfalso
          rcases hmiss with hm | hm | hm
          · have hs := rekey_blocks_ok_all_present _ _ _ h1 (name, bid) hmem
            rw [hm] at hs
            simp at hs
          · have hs := rekey_blocks_ok_all_present _ _ _ h2 (name, bid) hmem
            rw [hm] at hs
            simp at hs
          · have hs := rekey_blocks_ok_all_present _ _ _ h3 (name, bid) hmem
            rw [hm] at hs
            simp at hs

/-- A debug payload keyed by block id "3" for the C6 witness. -/
def debugPayloadExample : DebugPayload :=
  { global_stability_rate := 1
    global_energy_estimate := 2
    block_stability_rates := [("3", 4)]
    block_energy_estimates := [("3", 5)]
    block_stable_times := [("3", 6)] }

/-- A debug-enabled session with block map armA to 3. -/
def debugSessionExample : SessionState :=
  { freshState with debug_enabled := true, block_name_map := [("armA", 3)] }

/-- Witness for C6 at the concrete armA payload, at a debug-disabled
state, and for the re-keyed membership of armA. -/
theorem c6_witness :
    process_debugging_data debugPayloadExample debugSessionExample =
      Except.ok
        ({ debugSessionExample with debug_data_history :=
            debugSessionExample.debug_data_history ++
              [{ global_stability_rate := 1
                 global_energy_estimate := 2
                 block_stability_rates := [("armA", 4)]
                 block_energy_estimates := [("armA", 5)]
                 block_stable_times := [("armA", 6)] }] },
         some
           { global_stability_rate := 1
             global_energy_estimate := 2
             block_stability_rates := [("armA", 4)]
             block_energy_estimates := [("armA", 5)]
             block_stable_times := [("armA", 6)] }) ∧
    process_debugging_data debugPayloadExample freshState =
      Except.ok (freshState, none) ∧
    ("armA", (4 : ℚ)) ∈ [("armA", (4 : ℚ))] := by
  refine ⟨?_, ?_, ?_⟩
  · exact (c6_debug_relay_rekeys_by_name debugSessionExample debugPayloadExample).2.1
      [("armA", 4)] [("armA", 5)] [("armA", 6)] rfl rfl rfl rfl
  · exact (c6_debug_relay_rekeys_by_name freshState debugPayloadExample).1 rfl
  · exact (c6_debug_relay_rekeys_by_name debugSessionExample debugPayloadExample).2.2.1
      "armA" 3 4 [("armA", 4)] (by decide) rfl rfl

/-- A session whose motor m saw the value history 0.0, 1.0, 2.0. -/
def summarySessionExample : SessionState :=
  { freshState with
    session_id := some 7
    motor_name_map := [("m", 0)]
    motor_value_history := [[("m", 0)], [("m", 1)], [("m", 2)]] }

/-- A session with one declared motor and no recorded value history. -/
def summaryMissingExample : SessionState :=
  { freshState with session_id := some 7, motor_name_map := [("m", 0)] }

/-- Counterexample to C8 as stated: for a declared motor absent from
the recorded history the gather does return an empty sequence with a
warning, but the reporter then raises at np.min of that empty sequence
and never computes or prints any statistics, instead of completing the
summary. -/
theorem c8_counterexample_absent_name_aborts :
    get_history_by_name summaryMissingExample.motor_value_history "m" =
      Except.ok ([], true) ∧
    end_sim summaryMissingExample =
      Except.error (TickFault.npEmptyValueError "m") := by
  exact ⟨rfl, rfl⟩

/-- C8 amended: the reporter gathers an empty sequence with a warning
when the name is absent from the recorded history, but then aborts
with numpy's ValueError at np.min instead of computing statistics; for
every nonempty gathered history it computes min, max, median and mean,
and for the motor history 0.0, 1.0, 2.0 these are 0.0, 2.0, 1.0 and
1.0, as exercised end to end by end_sim on summarySessionExample. -/
theorem c8_summary_stats (hist : List (List (String × ℚ))) (name nm : String)
    (d : List (String × ℚ)) (rest : List (List (String × ℚ)))
    (more : List String) (w : Bool) :
    (get_history_by_name [] name = Except.ok ([], true)) ∧
    (hist = d :: rest → dict_lookup name d = none →
      get_history_by_name hist name = Except.ok ([], true)) ∧
    (get_history_by_name hist nm = Except.ok ([], w) →
      report_names hist (nm :: more) = Except.error (TickFault.npEmptyValueError nm)) ∧
    (summarize [0, 1, 2] =
      { nmin := some 0, nmax := some 2, nmedian := some 1, nmean := some 1 }) ∧
    (end_sim summarySessionExample =
      Except.ok
        ([{ name := "m", warned := false,
            stats := { nmin := some 0, nmax := some 2, nmedian := some 1, nmean := some 1 } }],
         [], none, end_sim_cleanup summarySessionExample)) := by
  refine ⟨rfl, ?_, ?_, ?_, ?_⟩
  · intro h1 h2
    subst h1
    simp [get_history_by_name, h2]
  · intro hgather
    simp [report_names, hgather, np_min]
  · norm_num [summarize, np_min, np_max, np_median, np_mean, List.insertionSort,
      List.orderedInsert, min_def]
  · norm_num [end_sim, report_names, get_history_by_name, lookup_all, dict_lookup,
      summarySessionExample, freshState, summarize, np_min, np_max, np_median, np_mean,
      List.insertionSort, List.orderedInsert, min_def, Except.map]

/-- Witness for the amended C8 at a history whose first entry lacks
the name: the gather warns and returns the empty sequence, and the
reporter then aborts at np.min. -/
theorem c8_witness :
    report_names [[("x", (1 : ℚ))]] ["m"] =
      Except.error (TickFault.npEmptyValueError "m") := by
  have h := c8_summary_stats [[("x", 1)]] "m" "m" [("x", 1)] [] [] true
  exact h.2.2.1 (h.2.1 rfl rfl)

/-- Witness for C7 at one matching and one mismatching concrete
path. -/
theorem c7_witness :
    load_client_params "cfg.params" (0 : Nat) = Except.ok 0 ∧
    load_client_params "cfg.txt" (0 : Nat) =
      Except.error (LoadError.formatError
        ("config files must be of type" ++ ".params" ++ " got " ++ "cfg.txt")) := by
  constructor
  · exact (c7_load_client_params_extension_gate "cfg.params" 0).1.mpr (by decide)
  · exact (c7_load_client_params_extension_gate "cfg.txt" 0).2.mpr (by decide)
